import Mathlib

/-
Verification of the SCP transport logic in src/src/rs__transport.c.

The four functions of rs__transport.c (rs__attempt_transmission, rs__timer_cb,
rs__udp_send_cb, rs__udp_recv_cb, plus rs__udp_recv_alloc_cb) are embedded as
pure Lean functions. Each function returns the updated channel state together
with the ordered list of external calls it performs; calls into code outside
rs__transport.c (rs__cancel_outstanding, rs__process_request_queue,
rs__process_response, rs_free, and the libuv primitives) are recorded as
events, each carrying a snapshot of the channel state at the moment of the
call, so that ordering claims such as "the flag is cleared before the channel
is completed" are visible in the event list.
-/

namespace RigSCP

/-- Channel (outstanding slot) state: the fields of rs__outstanding_t that
rs__transport.c reads or writes. The C field send_req_active is what the spec
calls send_in_flight. -/
structure Outstanding where
  active : Bool
  cancelled : Bool
  send_req_active : Bool
  n_tries : Nat
  seq_num : Nat
  deriving DecidableEq

/-- Connection state read by rs__transport.c: the configured maximum number of
transmission attempts (conn->n_tries), the per-attempt timeout in milliseconds
(conn->timeout), the freeing flag (conn->free) and the pool of outstanding
channels (conn->outstanding, of length conn->n_outstanding). -/
structure Conn where
  n_tries : Nat
  timeout : Nat
  free : Bool
  outstanding : List Outstanding
  deriving DecidableEq

/-- One external call made by the transport code, with a snapshot of the
channel state at the moment of the call where relevant. -/
inductive Event where
  | uvUdpSend (os : Outstanding)
  | cancelOutstanding (os : Outstanding) (rc : Int)
  | rsFree
  | processRequestQueue (os : Outstanding)
  | uvTimerStart (os : Outstanding) (timeoutMs : Nat)
  | uvTimerStop
  | userCallback (rc : Int)
  | processResponse (idx : Nat) (os : Outstanding) (len : Nat)
  | freeRecvBuf
  deriving DecidableEq

/-- Embedding of rs__attempt_transmission (rs__transport.c lines 20-45).
sendResult is the value returned by the call to uv_udp_send (zero on
successful submission, nonzero on synchronous failure). The uvUdpSend event
records that uv_udp_send was called, with the channel state at that point;
it is absent exactly when no UDP send is submitted. -/
def rs__attempt_transmission (conn : Conn) (os : Outstanding) (sendResult : Int) :
    Outstanding × List Event :=
  if !os.active then
    (os, [])
  else
    let os1 : Outstanding := { os with n_tries := os.n_tries + 1 }
    if os1.n_tries ≤ conn.n_tries then
      let os2 : Outstanding := { os1 with send_req_active := true }
      if sendResult ≠ 0 then
        let os3 : Outstanding := { os2 with send_req_active := false }
        (os3, [Event.uvUdpSend os2, Event.cancelOutstanding os3 (-1)])
      else
        (os2, [Event.uvUdpSend os2])
    else
      (os1, [Event.cancelOutstanding os1 (-1)])

/-- Embedding of rs__timer_cb (rs__transport.c lines 48-56): the retransmit
timer callback re-enters rs__attempt_transmission on the same channel. -/
def rs__timer_cb (conn : Conn) (os : Outstanding) (sendResult : Int) :
    Outstanding × List Event :=
  rs__attempt_transmission conn os sendResult

/-- Embedding of rs__udp_send_cb (rs__transport.c lines 59-95). status is the
send status reported by the OS (zero on success). -/
def rs__udp_send_cb (conn : Conn) (os : Outstanding) (status : Int) :
    Outstanding × List Event :=
  let os1 : Outstanding := { os with send_req_active := false }
  if conn.free then
    (os1, [Event.rsFree])
  else if os1.active && os1.cancelled then
    let os2 : Outstanding := { os1 with active := false, cancelled := false }
    (os2, [Event.processRequestQueue os2])
  else if status ≠ 0 then
    (os1, [Event.cancelOutstanding os1 (-1)])
  else
    (os1, [Event.uvTimerStart os1 conn.timeout])

/-- A libuv buffer: base is none when the base pointer is NULL. -/
structure UvBuf where
  base : Option (List Nat)
  len : Nat
  deriving DecidableEq

/-- Embedding of rs__udp_recv_alloc_cb (rs__transport.c lines 98-109). The
outcome of malloc is modelled by the allocOk flag; malloc returns
uninitialised memory, modelled as zero bytes. -/
def rs__udp_recv_alloc_cb (suggested_size : Nat) (allocOk : Bool) : UvBuf :=
  if allocOk then
    { base := some (List.replicate suggested_size 0), len := suggested_size }
  else
    { base := none, len := 0 }

/-- Modelled from the spec: the macro RS__SIZEOF_SCP_PACKET comes from
rs__scp.h, which is not under src/. Spec section 4.1 gives the packet length
as HEADER plus 4 bytes per argument plus the data length, without fixing the
numeric header size, so the header size is a parameter hdrSize. -/
def RS__SIZEOF_SCP_PACKET (hdrSize n_args data_len : Nat) : Nat :=
  hdrSize + 4 * n_args + data_len

/-- Modelled from the spec: rs__unpack_scp_packet_seq_num comes from rs__scp.h,
which is not under src/. Spec section 6: the sequence number occupies a fixed
16-bit little-endian slot, here at byte offset seqOff. -/
def rs__unpack_scp_packet_seq_num (seqOff : Nat) (bytes : List Nat) : Nat :=
  (bytes.getD seqOff 0 + 256 * bytes.getD (seqOff + 1) 0) % 65536

/-- The scan of rs__udp_recv_cb over the channel pool (rs__transport.c lines
130-138): return the index and state of the first channel that is active with
the matching sequence number, if any. -/
def findMatch : List Outstanding → Nat → Option (Nat × Outstanding)
  | [], _ => none
  | os :: rest, seq_num =>
    if os.active && os.seq_num == seq_num then
      some (0, os)
    else
      match findMatch rest seq_num with
      | some (i, m) => some (i + 1, m)
      | none => none

/-- Embedding of rs__udp_recv_cb (rs__transport.c lines 112-144). nread is the
signed byte count reported by libuv (zero means no more data, negative means a
receive error). The result is none when the C code would dereference a NULL
buffer base (never reached under the libuv contract that nread is at most
buf.len). hdrSize and seqOff parameterise the packet layout of rs__scp.h,
which is not under src/. -/
def rs__udp_recv_cb (hdrSize seqOff : Nat) (conn : Conn) (nread : Int)
    (buf : UvBuf) : Option (List Event) :=
  let freeEvts : List Event := if buf.base.isSome then [Event.freeRecvBuf] else []
  if ((RS__SIZEOF_SCP_PACKET hdrSize 0 0 : Nat) : Int) ≤ nread then
    match buf.base with
    | none => none
    | some bytes =>
      let seq_num := rs__unpack_scp_packet_seq_num seqOff bytes
      let evts : List Event :=
        match findMatch conn.outstanding seq_num with
        | some (i, m) => [Event.processResponse i m nread.toNat]
        | none => []
      some (evts ++ freeEvts)
  else
    some freeEvts

/-- Modelled from the spec: rs__cancel_outstanding is declared in
rs__internal.h and called by rs__transport.c, but its definition is not under
src/. Spec section 4.2: cancel the retransmit timer; if a send is in flight,
mark cancelled and defer completion until the send callback fires; otherwise
set active to false, invoke the completion callback with the given result
code, then run the dispatch loop. -/
def rs__cancel_outstanding (os : Outstanding) (rc : Int) :
    Outstanding × List Event :=
  if os.send_req_active then
    ({ os with cancelled := true }, [Event.uvTimerStop])
  else
    let os1 : Outstanding := { os with active := false }
    (os1, [Event.uvTimerStop, Event.userCallback rc,
           Event.processRequestQueue os1])

/-- Test for a timer-start event. -/
def isTimerStart : Event → Bool
  | Event.uvTimerStart _ _ => true
  | _ => false

/-- Test for a uv_udp_send submission event. -/
def isUvUdpSend : Event → Bool
  | Event.uvUdpSend _ => true
  | _ => false

/-- Result codes passed to rs__cancel_outstanding in an event list, in order. -/
def cancelRCs : List Event → List Int
  | [] => []
  | Event.cancelOutstanding _ rc :: rest => rc :: cancelRCs rest
  | _ :: rest => cancelRCs rest

/-- Number of rs__process_response invocations in an event list. -/
def countProcessResponse : List Event → Nat
  | [] => 0
  | Event.processResponse _ _ _ :: rest => countProcessResponse rest + 1
  | _ :: rest => countProcessResponse rest

/-- C8: when the active flag of a channel is false, rs__attempt_transmission —
also when entered through the timer callback rs__timer_cb — returns the
channel state unchanged and performs no external call: no increment of
n_tries, no UDP send, no callback, no state change. -/
theorem attempt_transmission_inactive_is_noop (conn : Conn) (os : Outstanding)
    (r : Int) (h : os.active = false) :
    rs__attempt_transmission conn os r = (os, []) ∧
    rs__timer_cb conn os r = (os, []) := by
  constructor <;> simp [rs__attempt_transmission, rs__timer_cb, h]

/-- Witness for C8 at a concrete inactive channel. -/
theorem attempt_transmission_inactive_is_noop_witness :
    rs__attempt_transmission ⟨5, 500, false, []⟩ ⟨false, false, false, 0, 7⟩ 0
        = (⟨false, false, false, 0, 7⟩, []) ∧
    rs__timer_cb ⟨5, 500, false, []⟩ ⟨false, false, false, 0, 7⟩ 0
        = (⟨false, false, false, 0, 7⟩, []) :=
  attempt_transmission_inactive_is_noop ⟨5, 500, false, []⟩
    ⟨false, false, false, 0, 7⟩ 0 rfl

/-- C1: on an active channel rs__attempt_transmission increments n_tries
before any transmit is attempted — the resulting state and every uv_udp_send
event carry the incremented count — and when the incremented count exceeds
the configured maximum conn.n_tries, no UDP send is submitted and the channel
is completed via rs__cancel_outstanding with the timeout result code -1. -/
theorem attempt_transmission_retry_budget (conn : Conn) (os : Outstanding)
    (r : Int) (h : os.active = true) :
    (rs__attempt_transmission conn os r).1.n_tries = os.n_tries + 1 ∧
    (∀ s, Event.uvUdpSend s ∈ (rs__attempt_transmission conn os r).2 →
      s.n_tries = os.n_tries + 1) ∧
    (conn.n_tries < os.n_tries + 1 →
      (rs__attempt_transmission conn os r).2 =
        [Event.cancelOutstanding { os with n_tries := os.n_tries + 1 } (-1)]) := by
  refine ⟨?_, ?_, ?_⟩
  · unfold rs__attempt_transmission
    by_cases h2 : os.n_tries + 1 ≤ conn.n_tries
    · by_cases h3 : r = 0 <;> simp [h, h2, h3]
    · simp [h, h2]
  · intro s hm
    unfold rs__attempt_transmission at hm
    by_cases h2 : os.n_tries + 1 ≤ conn.n_tries
    · by_cases h3 : r = 0 <;> simp [h, h2, h3] at hm <;> simp [hm]
    · simp [h, h2] at hm
  · intro hlt
    have h2 : ¬(os.n_tries + 1 ≤ conn.n_tries) := by omega
    unfold rs__attempt_transmission
    simp [h, h2]

/-- Witness for C1 at a concrete exhausted channel: with the maximum set to 1
and one try already made, no UDP send is submitted and the channel is
completed with result code -1. -/
theorem attempt_transmission_retry_budget_witness :
    (rs__attempt_transmission ⟨1, 500, false, []⟩ ⟨true, false, false, 1, 0⟩ 0).2
      = [Event.cancelOutstanding ⟨true, false, false, 2, 0⟩ (-1)] :=
  (attempt_transmission_retry_budget ⟨1, 500, false, []⟩
    ⟨true, false, false, 1, 0⟩ 0 rfl).2.2 (by decide)

/-- C7: when the channel is active, the retry budget is not exhausted, and
uv_udp_send fails synchronously (nonzero return), rs__attempt_transmission
clears send_req_active before completing the channel: the events are the
failed submission followed by rs__cancel_outstanding with the transport
result code -1, and the snapshot passed to rs__cancel_outstanding already has
send_req_active cleared, as does the final state. -/
theorem attempt_transmission_sync_failure (conn : Conn) (os : Outstanding)
    (r : Int) (h : os.active = true) (h2 : os.n_tries + 1 ≤ conn.n_tries)
    (h3 : r ≠ 0) :
    (rs__attempt_transmission conn os r).1.send_req_active = false ∧
    (rs__attempt_transmission conn os r).2 =
      [Event.uvUdpSend
         { os with n_tries := os.n_tries + 1, send_req_active := true },
       Event.cancelOutstanding
         { os with n_tries := os.n_tries + 1, send_req_active := false } (-1)] := by
  unfold rs__attempt_transmission
  simp [h, h2, h3]

/-- Witness for C7 at a concrete channel whose submission fails with -3. -/
theorem attempt_transmission_sync_failure_witness :
    (rs__attempt_transmission ⟨5, 500, false, []⟩ ⟨true, false, false, 0, 9⟩
        (-3)).1.send_req_active = false ∧
    (rs__attempt_transmission ⟨5, 500, false, []⟩ ⟨true, false, false, 0, 9⟩
        (-3)).2 =
      [Event.uvUdpSend ⟨true, false, true, 1, 9⟩,
       Event.cancelOutstanding ⟨true, false, false, 1, 9⟩ (-1)] :=
  attempt_transmission_sync_failure ⟨5, 500, false, []⟩
    ⟨true, false, false, 0, 9⟩ (-3) rfl (by decide) (by decide)

/-- C6: counterexample — the result code passed to rs__cancel_outstanding on
retry-budget exhaustion equals the one passed on a synchronous send failure
and on an asynchronous send failure: all three are -1 at these concrete
inputs, so the timeout case is not distinguished from the transport case by
the result code, contrary to the claim that the codes differ. -/
theorem cancel_rc_not_distinct :
    cancelRCs (rs__attempt_transmission ⟨1, 500, false, []⟩
        ⟨true, false, false, 1, 0⟩ 0).2 = [(-1 : Int)] ∧
    cancelRCs (rs__attempt_transmission ⟨1, 500, false, []⟩
        ⟨true, false, false, 0, 0⟩ (-3)).2 = [(-1 : Int)] ∧
    cancelRCs (rs__udp_send_cb ⟨1, 500, false, []⟩
        ⟨true, false, true, 1, 0⟩ (-5)).2 = [(-1 : Int)] := by
  decide

/-- C6 (amended): every result code that rs__transport.c passes to
rs__cancel_outstanding — on retry-budget exhaustion, on synchronous send
failure, and on asynchronous send failure — is the same code -1, so the
timeout and transport error cases are not distinguishable by the result code
passed at this layer. -/
theorem cancel_rc_uniform (conn : Conn) (os : Outstanding) (r status : Int) :
    (∀ s rc, Event.cancelOutstanding s rc ∈
        (rs__attempt_transmission conn os r).2 → rc = -1) ∧
    (∀ s rc, Event.cancelOutstanding s rc ∈
        (rs__udp_send_cb conn os status).2 → rc = -1) := by
  refine ⟨fun s rc hm => ?_, fun s rc hm => ?_⟩
  · cases h1 : os.active with
    | false => simp [rs__attempt_transmission, h1] at hm
    | true =>
      by_cases h2 : os.n_tries + 1 ≤ conn.n_tries
      · by_cases h3 : r = 0
        · simp [rs__attempt_transmission, h1, h2, h3] at hm
        · simp [rs__attempt_transmission, h1, h2, h3] at hm
          exact hm.2
      · simp [rs__attempt_transmission, h1, h2] at hm
        exact hm.2
  · cases hf : conn.free with
    | true => simp [rs__udp_send_cb, hf] at hm
    | false =>
      by_cases hac : os.active = true ∧ os.cancelled = true
      · simp [rs__udp_send_cb, hf, hac.1, hac.2] at hm
      · by_cases hs : status = 0
        · simp [rs__udp_send_cb, hf, hs, hac] at hm
        · simp [rs__udp_send_cb, hf, hs, hac] at hm
          exact hm.2

/-- Witness for the amended C6 at a concrete exhausted channel. -/
theorem cancel_rc_uniform_witness :
    Event.cancelOutstanding ⟨true, false, false, 2, 0⟩ (-1) ∈
      (rs__attempt_transmission ⟨1, 500, false, []⟩
        ⟨true, false, false, 1, 0⟩ 0).2 ∧
    (-1 : Int) = -1 :=
  ⟨by decide,
   (cancel_rc_uniform ⟨1, 500, false, []⟩ ⟨true, false, false, 1, 0⟩ 0 0).1
     ⟨true, false, false, 2, 0⟩ (-1) (by decide)⟩

/-- C2: rs__udp_send_cb always clears send_req_active first, and then performs
exactly one of, in priority order: re-attempting the teardown via rs_free when
the connection is freeing; handling a deferred cancellation when the channel
is active and cancelled; completing the channel with the transport result
code -1 when the OS reported a send error; otherwise starting the one-shot
retransmit timer with the configured timeout. -/
theorem udp_send_cb_priority (conn : Conn) (os : Outstanding) (status : Int) :
    (rs__udp_send_cb conn os status).1.send_req_active = false ∧
    (conn.free = true → (rs__udp_send_cb conn os status).2 = [Event.rsFree]) ∧
    (conn.free = false → os.active = true → os.cancelled = true →
      (rs__udp_send_cb conn os status).2 =
        [Event.processRequestQueue
          { os with active := false, cancelled := false,
                    send_req_active := false }]) ∧
    (conn.free = false → ¬(os.active = true ∧ os.cancelled = true) →
      status ≠ 0 →
      (rs__udp_send_cb conn os status).2 =
        [Event.cancelOutstanding { os with send_req_active := false } (-1)]) ∧
    (conn.free = false → ¬(os.active = true ∧ os.cancelled = true) →
      status = 0 →
      (rs__udp_send_cb conn os status).2 =
        [Event.uvTimerStart { os with send_req_active := false }
          conn.timeout]) := by
  refine ⟨?_, ?_, ?_, ?_, ?_⟩
  · cases hf : conn.free with
    | true => simp [rs__udp_send_cb, hf]
    | false =>
      by_cases hac : os.active = true ∧ os.cancelled = true
      · simp [rs__udp_send_cb, hf, hac.1, hac.2]
      · by_cases hs : status = 0 <;> simp [rs__udp_send_cb, hf, hac, hs]
  · intro hf
    simp [rs__udp_send_cb, hf]
  · intro hf ha hc
    simp [rs__udp_send_cb, hf, ha, hc]
  · intro hf hac hs
    simp [rs__udp_send_cb, hf, hac, hs]
  · intro hf hac hs
    simp [rs__udp_send_cb, hf, hac, hs]

/-- Witness for C2 at a concrete successful completion: the timer is started
with the configured timeout of 500 and the send-in-flight flag is clear. -/
theorem udp_send_cb_priority_witness :
    (rs__udp_send_cb ⟨5, 500, false, []⟩ ⟨true, false, true, 1, 3⟩
        0).1.send_req_active = false ∧
    (rs__udp_send_cb ⟨5, 500, false, []⟩ ⟨true, false, true, 1, 3⟩ 0).2 =
      [Event.uvTimerStart ⟨true, false, false, 1, 3⟩ 500] :=
  ⟨(udp_send_cb_priority ⟨5, 500, false, []⟩ ⟨true, false, true, 1, 3⟩ 0).1,
   (udp_send_cb_priority ⟨5, 500, false, []⟩ ⟨true, false, true, 1, 3⟩
       0).2.2.2.2 rfl (by decide) rfl⟩

/-- C4: on a non-freeing connection, a send completion for a channel that is
both active and cancelled clears both flags, leaving the channel idle with no
send in flight, and its only external call is the dispatch loop
rs__process_request_queue, whose snapshot already shows the idle channel.
Moreover no other path of rs__transport.c makes such a channel idle:
rs__attempt_transmission (and hence rs__timer_cb) never changes the active or
cancelled flags, and the spec-modelled rs__cancel_outstanding keeps the
channel active while its send is in flight, so the channel becomes idle only
once its send callback has fired. -/
theorem send_cb_deferred_cancellation (conn : Conn) (os : Outstanding)
    (status : Int) (hf : conn.free = false) (ha : os.active = true)
    (hc : os.cancelled = true) :
    ((rs__udp_send_cb conn os status).1.active = false ∧
     (rs__udp_send_cb conn os status).1.cancelled = false ∧
     (rs__udp_send_cb conn os status).1.send_req_active = false) ∧
    (rs__udp_send_cb conn os status).2 =
      [Event.processRequestQueue (rs__udp_send_cb conn os status).1] ∧
    (∀ (c : Conn) (r : Int),
      (rs__attempt_transmission c os r).1.active = os.active ∧
      (rs__attempt_transmission c os r).1.cancelled = os.cancelled) ∧
    (∀ rc : Int, os.send_req_active = true →
      (rs__cancel_outstanding os rc).1.active = os.active ∧
      (rs__cancel_outstanding os rc).1.cancelled = true) := by
  refine ⟨?_, ?_, ?_, ?_⟩
  · simp [rs__udp_send_cb, hf, ha, hc]
  · simp [rs__udp_send_cb, hf, ha, hc]
  · intro c r
    unfold rs__attempt_transmission
    by_cases h2 : os.n_tries + 1 ≤ c.n_tries
    · by_cases h3 : r = 0 <;> simp [ha, h2, h3]
    · simp [ha, h2]
  · intro rc hs
    simp [rs__cancel_outstanding, hs]

/-- Witness for C4 at a concrete active-and-cancelled channel. -/
theorem send_cb_deferred_cancellation_witness :
    (rs__udp_send_cb ⟨5, 500, false, []⟩ ⟨true, true, true, 2, 4⟩ 0).1.active
      = false ∧
    (rs__udp_send_cb ⟨5, 500, false, []⟩ ⟨true, true, true, 2, 4⟩ 0).2 =
      [Event.processRequestQueue
        (rs__udp_send_cb ⟨5, 500, false, []⟩ ⟨true, true, true, 2, 4⟩ 0).1] :=
  ⟨(send_cb_deferred_cancellation ⟨5, 500, false, []⟩ ⟨true, true, true, 2, 4⟩
      0 rfl rfl rfl).1.1,
   (send_cb_deferred_cancellation ⟨5, 500, false, []⟩ ⟨true, true, true, 2, 4⟩
      0 rfl rfl rfl).2.1⟩

/-- C5: the retransmit timer is armed only by rs__udp_send_cb, exactly on a
successful (status zero), non-cancelled, non-freeing completion; any timer
start it performs carries a channel snapshot with send_req_active already
cleared and runs for the configured timeout. rs__attempt_transmission, the
spec-modelled rs__cancel_outstanding and rs__udp_recv_cb never start the
timer, and the timer callback rs__timer_cb re-enters rs__attempt_transmission
on the same channel. -/
theorem timer_armed_only_after_successful_send (conn : Conn) (os : Outstanding)
    (status r : Int) :
    (((rs__udp_send_cb conn os status).2.any isTimerStart = true) ↔
      (conn.free = false ∧ ¬(os.active = true ∧ os.cancelled = true) ∧
        status = 0)) ∧
    (∀ s d, Event.uvTimerStart s d ∈ (rs__udp_send_cb conn os status).2 →
      s.send_req_active = false ∧ d = conn.timeout) ∧
    ((rs__attempt_transmission conn os r).2.any isTimerStart = false) ∧
    (∀ rc : Int, (rs__cancel_outstanding os rc).2.any isTimerStart = false) ∧
    (∀ (hdrSize seqOff : Nat) (c : Conn) (nread : Int) (buf : UvBuf) evts,
      rs__udp_recv_cb hdrSize seqOff c nread buf = some evts →
      evts.any isTimerStart = false) ∧
    rs__timer_cb conn os r = rs__attempt_transmission conn os r := by
  refine ⟨?_, ?_, ?_, ?_, ?_, rfl⟩
  · cases hf : conn.free with
    | true => simp [rs__udp_send_cb, hf, isTimerStart]
    | false =>
      by_cases hac : os.active = true ∧ os.cancelled = true
      · simp [rs__udp_send_cb, hf, hac.1, hac.2, isTimerStart]
      · by_cases hs : status = 0 <;>
          simp [rs__udp_send_cb, hf, hac, hs, isTimerStart]
  · intro s d hm
    cases hf : conn.free with
    | true => simp [rs__udp_send_cb, hf] at hm
    | false =>
      by_cases hac : os.active = true ∧ os.cancelled = true
      · simp [rs__udp_send_cb, hf, hac.1, hac.2] at hm
      · by_cases hs : status = 0
        · simp [rs__udp_send_cb, hf, hac, hs] at hm
          simp [hm.1, hm.2]
        · simp [rs__udp_send_cb, hf, hac, hs] at hm
  · cases h1 : os.active with
    | false => simp [rs__attempt_transmission, h1]
    | true =>
      by_cases h2 : os.n_tries + 1 ≤ conn.n_tries
      · by_cases h3 : r = 0 <;>
          simp [rs__attempt_transmission, h1, h2, h3, isTimerStart]
      · simp [rs__attempt_transmission, h1, h2, isTimerStart]
  · intro rc
    by_cases hs : os.send_req_active = true <;>
      simp [rs__cancel_outstanding, hs, isTimerStart]
  · intro hdrSize seqOff c nread buf evts hrecv
    unfold rs__udp_recv_cb at hrecv
    by_cases hlen : ((RS__SIZEOF_SCP_PACKET hdrSize 0 0 : Nat) : Int) ≤ nread
    · rcases hb : buf.base with _ | bytes
      · simp [hlen, hb] at hrecv
      · simp only [hlen, hb, if_true, if_pos] at hrecv
        rcases hfm : findMatch c.outstanding
            (rs__unpack_scp_packet_seq_num seqOff bytes) with _ | ⟨i, m⟩
        · simp [hfm, hb] at hrecv
          simp [← hrecv, isTimerStart]
        · simp [hfm, hb] at hrecv
          simp [← hrecv, isTimerStart]
    · simp [hlen] at hrecv
      rcases hb : buf.base with _ | bytes <;> simp [hb] at hrecv <;>
        subst hrecv <;> simp [isTimerStart]

/-- Witness for C5 at a concrete successful completion and a concrete
retransmission attempt. -/
theorem timer_armed_only_witness :
    ((rs__udp_send_cb ⟨5, 500, false, []⟩ ⟨true, false, true, 1, 3⟩ 0).2.any
        isTimerStart = true) ∧
    ((rs__attempt_transmission ⟨5, 500, false, []⟩ ⟨true, false, false, 1, 3⟩
        0).2.any isTimerStart = false) :=
  ⟨(timer_armed_only_after_successful_send ⟨5, 500, false, []⟩
      ⟨true, false, true, 1, 3⟩ 0 0).1.mpr ⟨rfl, by decide, rfl⟩,
   (timer_armed_only_after_successful_send ⟨5, 500, false, []⟩
      ⟨true, false, false, 1, 3⟩ 0 0).2.2.1⟩

/-- Helper: when no channel in the pool is active with the given sequence
number, the scan of rs__udp_recv_cb finds nothing. -/
theorem findMatch_eq_none_of_no_match : ∀ (pool : List Outstanding)
    (seq : Nat),
    (∀ os ∈ pool, ¬(os.active = true ∧ os.seq_num = seq)) →
    findMatch pool seq = none
  | [], _, _ => rfl
  | hd :: tl, seq, h => by
    have hhd := h hd (List.mem_cons_self hd tl)
    have hb : (hd.active && hd.seq_num == seq) = false := by
      cases hactive : hd.active with
      | false => simp
      | true =>
        have hs : (hd.seq_num == seq) = false :=
          beq_eq_false_iff_ne.mpr (fun he => hhd ⟨hactive, he⟩)
        simp [hs]
    have ht : findMatch tl seq = none :=
      findMatch_eq_none_of_no_match tl seq
        (fun os hm => h os (List.mem_cons_of_mem hd hm))
    simp [findMatch, hb, ht]

/-- Helper: a successful scan returns the first match — the returned channel
is at the returned index, is active with the given sequence number, and every
channel at a lower index fails the test. -/
theorem findMatch_some_spec : ∀ (pool : List Outstanding) (seq i : Nat)
    (m : Outstanding), findMatch pool seq = some (i, m) →
    m.active = true ∧ m.seq_num = seq ∧ pool.get? i = some m ∧
    ∀ j, j < i → ∀ os, pool.get? j = some os →
      ¬(os.active = true ∧ os.seq_num = seq)
  | [], _, _, _, h => by cases h
  | hd :: tl, seq, i, m, h => by
    by_cases hb : (hd.active && hd.seq_num == seq) = true
    · have hi : i = 0 ∧ m = hd := by
        simp [findMatch, hb] at h
        exact ⟨h.1.symm, h.2.symm⟩
      rcases hi with ⟨hi0, hm0⟩
      subst hi0; subst hm0
      rcases Bool.and_eq_true_iff.mp hb with ⟨ha, hs⟩
      exact ⟨ha, beq_iff_eq.mp hs, rfl, fun j hj => by omega⟩
    · have hb' : (hd.active && hd.seq_num == seq) = false :=
        Bool.eq_false_iff.mpr hb
      rcases hfm : findMatch tl seq with _ | ⟨i', m'⟩
      · exfalso
        simp [findMatch, hb', hfm] at h
      · have hh : i = i' + 1 ∧ m = m' := by
          simp [findMatch, hb', hfm] at h
          exact ⟨h.1.symm, h.2.symm⟩
        rcases hh with ⟨hi1, hm1⟩
        subst hi1
        subst hm1
        rcases findMatch_some_spec tl seq i' m hfm with ⟨h1, h2, h3, h4⟩
        refine ⟨h1, h2, by simpa using h3, ?_⟩
        intro j hj os hget
        match j with
        | 0 =>
          have hos : hd = os := by simpa using hget
          intro hcon
          have hx : (hd.active && hd.seq_num == seq) = true := by
            rw [hos]
            simp [hcon.1, hcon.2]
          rw [hb'] at hx
          cases hx
        | Nat.succ j' =>
          have hget' : tl.get? j' = some os := by simpa using hget
          exact h4 j' (by omega) os hget'

/-- C3: a received datagram shorter than the minimum SCP packet size —
including the zero-length and negative-length deliveries libuv reports — is
dropped with no dispatch to any channel (the only event is freeing a non-null
receive buffer, and the embedded callback returns no channel-state change);
a sufficiently long datagram has its sequence number extracted and, when an
active channel carries that number, is dispatched to such a channel, while if
no active channel matches it is likewise dropped silently. -/
theorem udp_recv_cb_dispatch (hdrSize seqOff : Nat) (conn : Conn)
    (nread : Int) (buf : UvBuf) :
    (nread < ((RS__SIZEOF_SCP_PACKET hdrSize 0 0 : Nat) : Int) →
      rs__udp_recv_cb hdrSize seqOff conn nread buf =
        some (if buf.base.isSome then [Event.freeRecvBuf] else [])) ∧
    (∀ bytes, buf.base = some bytes →
      ((RS__SIZEOF_SCP_PACKET hdrSize 0 0 : Nat) : Int) ≤ nread →
      ((∀ os ∈ conn.outstanding,
          ¬(os.active = true ∧
            os.seq_num = rs__unpack_scp_packet_seq_num seqOff bytes)) →
        rs__udp_recv_cb hdrSize seqOff conn nread buf =
          some [Event.freeRecvBuf]) ∧
      (∀ i m, findMatch conn.outstanding
            (rs__unpack_scp_packet_seq_num seqOff bytes) = some (i, m) →
        m.active = true ∧
        m.seq_num = rs__unpack_scp_packet_seq_num seqOff bytes ∧
        rs__udp_recv_cb hdrSize seqOff conn nread buf =
          some [Event.processResponse i m nread.toNat, Event.freeRecvBuf])) := by
  constructor
  · intro hshort
    have hlen : ¬(((RS__SIZEOF_SCP_PACKET hdrSize 0 0 : Nat) : Int) ≤ nread) :=
      by omega
    unfold rs__udp_recv_cb
    simp [hlen]
  · intro bytes hb hlen
    constructor
    · intro hnone
      have hfm : findMatch conn.outstanding
          (rs__unpack_scp_packet_seq_num seqOff bytes) = none :=
        findMatch_eq_none_of_no_match conn.outstanding
          (rs__unpack_scp_packet_seq_num seqOff bytes) hnone
      unfold rs__udp_recv_cb
      simp [hlen, hb, hfm]
    · intro i m hfm
      rcases findMatch_some_spec conn.outstanding
          (rs__unpack_scp_packet_seq_num seqOff bytes) i m hfm with
        ⟨h1, h2, _, _⟩
      refine ⟨h1, h2, ?_⟩
      unfold rs__udp_recv_cb
      simp [hlen, hb, hfm]

/-- Witness for C3: a two-byte datagram (shorter than any positive minimum
packet size) is dropped, and a twelve-byte datagram carrying sequence number
3 is dispatched to the single active channel holding sequence number 3. -/
theorem udp_recv_cb_dispatch_witness :
    rs__udp_recv_cb 12 2 ⟨5, 500, false, [⟨true, false, false, 1, 3⟩]⟩ 2
        ⟨some [0, 0], 2⟩ = some [Event.freeRecvBuf] ∧
    rs__udp_recv_cb 12 2 ⟨5, 500, false, [⟨true, false, false, 1, 3⟩]⟩ 12
        ⟨some [0, 0, 3, 0, 0, 0, 0, 0, 0, 0, 0, 0], 12⟩ =
      some [Event.processResponse 0 ⟨true, false, false, 1, 3⟩ 12,
            Event.freeRecvBuf] := by
  constructor
  · have h := (udp_recv_cb_dispatch 12 2
      ⟨5, 500, false, [⟨true, false, false, 1, 3⟩]⟩ 2 ⟨some [0, 0], 2⟩).1
      (by decide)
    simpa using h
  · have h := ((udp_recv_cb_dispatch 12 2
      ⟨5, 500, false, [⟨true, false, false, 1, 3⟩]⟩ 12
      ⟨some [0, 0, 3, 0, 0, 0, 0, 0, 0, 0, 0, 0], 12⟩).2
      [0, 0, 3, 0, 0, 0, 0, 0, 0, 0, 0, 0] rfl (by decide)).2
      0 ⟨true, false, false, 1, 3⟩ (by decide)
    exact h.2.2

/-- C9: rs__udp_recv_cb dispatches each datagram to at most one channel —
every event list it produces contains at most one rs__process_response
invocation — and the scan stops at the first match: when the scan succeeds,
the dispatched index holds an active channel with the matching sequence
number, every lower index fails the test, and exactly one response-processor
invocation occurs. -/
theorem udp_recv_cb_first_match_only (hdrSize seqOff : Nat) (conn : Conn)
    (nread : Int) (buf : UvBuf) :
    (∀ evts, rs__udp_recv_cb hdrSize seqOff conn nread buf = some evts →
      countProcessResponse evts ≤ 1) ∧
    (∀ bytes i m, buf.base = some bytes →
      ((RS__SIZEOF_SCP_PACKET hdrSize 0 0 : Nat) : Int) ≤ nread →
      findMatch conn.outstanding
          (rs__unpack_scp_packet_seq_num seqOff bytes) = some (i, m) →
      conn.outstanding.get? i = some m ∧ m.active = true ∧
      m.seq_num = rs__unpack_scp_packet_seq_num seqOff bytes ∧
      (∀ j, j < i → ∀ os, conn.outstanding.get? j = some os →
        ¬(os.active = true ∧
          os.seq_num = rs__unpack_scp_packet_seq_num seqOff bytes)) ∧
      countProcessResponse
        ((rs__udp_recv_cb hdrSize seqOff conn nread buf).getD []) = 1) := by
  constructor
  · intro evts hrecv
    unfold rs__udp_recv_cb at hrecv
    by_cases hlen : ((RS__SIZEOF_SCP_PACKET hdrSize 0 0 : Nat) : Int) ≤ nread
    · rcases hb : buf.base with _ | bytes
      · simp [hlen, hb] at hrecv
      · simp only [hlen, hb, if_pos] at hrecv
        rcases hfm : findMatch conn.outstanding
            (rs__unpack_scp_packet_seq_num seqOff bytes) with _ | ⟨i, m⟩
        · simp [hfm, hb] at hrecv
          simp [← hrecv, countProcessResponse]
        · simp [hfm, hb] at hrecv
          simp [← hrecv, countProcessResponse]
    · simp [hlen] at hrecv
      rcases hb : buf.base with _ | bytes <;> simp [hb] at hrecv <;>
        subst hrecv <;> simp [countProcessResponse]
  · intro bytes i m hb hlen hfm
    rcases findMatch_some_spec conn.outstanding
        (rs__unpack_scp_packet_seq_num seqOff bytes) i m hfm with
      ⟨h1, h2, h3, h4⟩
    refine ⟨h3, h1, h2, h4, ?_⟩
    unfold rs__udp_recv_cb
    simp [hlen, hb, hfm, countProcessResponse]

/-- Witness for C9 at the concrete dispatch of a twelve-byte datagram with
sequence number 3 to the first of two channels both holding it. -/
theorem udp_recv_cb_first_match_only_witness :
    countProcessResponse
      ((rs__udp_recv_cb 12 2
        ⟨5, 500, false, [⟨true, false, false, 1, 3⟩, ⟨true, false, false, 2, 3⟩]⟩
        12 ⟨some [0, 0, 3, 0, 0, 0, 0, 0, 0, 0, 0, 0], 12⟩).getD []) = 1 :=
  ((udp_recv_cb_first_match_only 12 2
      ⟨5, 500, false, [⟨true, false, false, 1, 3⟩, ⟨true, false, false, 2, 3⟩]⟩
      12 ⟨some [0, 0, 3, 0, 0, 0, 0, 0, 0, 0, 0, 0], 12⟩).2
    [0, 0, 3, 0, 0, 0, 0, 0, 0, 0, 0, 0] 0 ⟨true, false, false, 1, 3⟩ rfl
    (by decide) (by decide)).2.2.2.2

/-- C10: when malloc fails, rs__udp_recv_alloc_cb reports a null base with
length zero rather than failing, and rs__udp_recv_cb tolerates this: under
the libuv contract that nread is at most the buffer length, and with a
positive minimum packet size, the receive callback performs no event at all —
it neither dereferences nor frees the null base and no channel is reached. -/
theorem recv_alloc_failure_safe (hdrSize seqOff suggested : Nat) (conn : Conn)
    (nread : Int) (hh : 1 ≤ hdrSize)
    (hn : nread ≤ ((rs__udp_recv_alloc_cb suggested false).len : Int)) :
    (rs__udp_recv_alloc_cb suggested false).base = none ∧
    (rs__udp_recv_alloc_cb suggested false).len = 0 ∧
    rs__udp_recv_cb hdrSize seqOff conn nread
        (rs__udp_recv_alloc_cb suggested false) = some [] := by
  have hbuf : rs__udp_recv_alloc_cb suggested false = ⟨none, 0⟩ := rfl
  refine ⟨by simp [hbuf], by simp [hbuf], ?_⟩
  rw [hbuf]
  have hn0 : nread ≤ 0 := by
    simpa [hbuf] using hn
  have hlen : ¬(((RS__SIZEOF_SCP_PACKET hdrSize 0 0 : Nat) : Int) ≤ nread) := by
    unfold RS__SIZEOF_SCP_PACKET
    omega
  unfold rs__udp_recv_cb
  simp [hlen]

/-- Witness for C10 at a concrete failed allocation with a negative read
length, as libuv reports a receive error. -/
theorem recv_alloc_failure_safe_witness :
    (rs__udp_recv_alloc_cb 65536 false).base = none ∧
    (rs__udp_recv_alloc_cb 65536 false).len = 0 ∧
    rs__udp_recv_cb 12 2 ⟨5, 500, false, [⟨true, false, false, 1, 3⟩]⟩ (-4095)
        (rs__udp_recv_alloc_cb 65536 false) = some [] :=
  recv_alloc_failure_safe 12 2 65536
    ⟨5, 500, false, [⟨true, false, false, 1, 3⟩]⟩ (-4095) (by decide)
    (by decide)

end RigSCP
